import Mathlib

set_option autoImplicit false

/-! Shallow embedding of the pulsar mailbox layer (pulsar/async/mailbox.py):
the message data model, the serialization and frame-codec boundaries, the
MailboxConsumer protocol machine and the MailboxClient.  Stateful Python
objects are embedded as explicit state records with state-passing functions;
raised exceptions are embedded as error values. -/

abbrev Bytes := List Nat

/-- Error values modelling the Python exception classes that the mailbox layer
and its collaborators can raise. -/
inductive PyErr where
  | protocolError (msg : String)
  | keyError (msg : String)
  | commandError (msg : String)
  | commandNotFound (msg : String)
  | notImplementedError
  | unpicklingError
  | connectionLost
  deriving DecidableEq, Repr

/-- Values carried in message fields (arguments, keyword values, results). -/
inductive Val where
  | vstr (s : String)
  | vint (i : Int)
  | vbool (b : Bool)
  | vnone
  deriving DecidableEq, Repr

/-- Result of a dispatched command: a plain value, or a captured exception
(the value sys.exc_info() stands for in MailboxConsumer.responde). -/
inductive RVal where
  | val (v : Val)
  | exc (e : PyErr)
  deriving DecidableEq, Repr

/-- Model of the message dictionaries exchanged by the mailbox layer.  The
optional fields model keys that may be absent from the dictionary. -/
structure Message where
  command : String
  sender : String := ""
  target : String := ""
  args : List Val := []
  kwargs : List (String × Val) := []
  ack : Option String := none
  result : Option RVal := none
  deriving DecidableEq, Repr

/-- Modelled from the spec: the Serialization Boundary (pickle.dumps protocol 2
in the code; pickle is the Python standard library, not part of this
repository).  A string is encoded as its length followed by its character
codes. -/
def encStr (s : String) : Bytes :=
  s.length :: s.data.map Char.toNat

/-- Modelled from the spec: inverse direction of the string encoding; fails on
truncated input. -/
def decStr : Bytes → Option (String × Bytes)
  | [] => none
  | n :: rest =>
    if n ≤ rest.length then
      some (String.mk ((rest.take n).map Char.ofNat), rest.drop n)
    else none

/-- Modelled from the spec: tagged encoding of a field value. -/
def encVal : Val → Bytes
  | .vstr s => 0 :: encStr s
  | .vint i => if i < 0 then [1, (-i).toNat] else [2, i.toNat]
  | .vbool b => [3, cond b 1 0]
  | .vnone => [4]

/-- Modelled from the spec: decoder for `encVal`. -/
def decVal : Bytes → Option (Val × Bytes)
  | 0 :: rest => (decStr rest).map fun p => (.vstr p.1, p.2)
  | 1 :: n :: rest => some (.vint (-(n : Int)), rest)
  | 2 :: n :: rest => some (.vint (n : Int), rest)
  | 3 :: b :: rest => some (.vbool (b == 1), rest)
  | 4 :: rest => some (.vnone, rest)
  | _ => none

/-- Modelled from the spec: length-prefixed encoding of a list of fields. -/
def encListWith {α : Type} (enc : α → Bytes) (xs : List α) : Bytes :=
  xs.length :: xs.foldr (fun x acc => enc x ++ acc) []

/-- Modelled from the spec: decode a known number of consecutive fields. -/
def decListCore {α : Type} (dec : Bytes → Option (α × Bytes)) :
    Nat → Bytes → Option (List α × Bytes)
  | 0, r => some ([], r)
  | n + 1, r =>
    match dec r with
    | none => none
    | some (x, r1) =>
      match decListCore dec n r1 with
      | none => none
      | some (xs, r2) => some (x :: xs, r2)

/-- Modelled from the spec: decoder for `encListWith`. -/
def decListWith {α : Type} (dec : Bytes → Option (α × Bytes)) :
    Bytes → Option (List α × Bytes)
  | [] => none
  | n :: rest => decListCore dec n rest

/-- Modelled from the spec: encoding of a pair of fields. -/
def encPairWith {α β : Type} (ea : α → Bytes) (eb : β → Bytes) (p : α × β) :
    Bytes :=
  ea p.1 ++ eb p.2

/-- Modelled from the spec: decoder for `encPairWith`. -/
def decPairWith {α β : Type} (da : Bytes → Option (α × Bytes))
    (db : Bytes → Option (β × Bytes)) (r : Bytes) :
    Option ((α × β) × Bytes) :=
  match da r with
  | none => none
  | some (a, r1) =>
    match db r1 with
    | none => none
    | some (b, r2) => some ((a, b), r2)

/-- Modelled from the spec: encoding of an optional field (an absent key). -/
def encOptWith {α : Type} (enc : α → Bytes) : Option α → Bytes
  | none => [0]
  | some x => 1 :: enc x

/-- Modelled from the spec: decoder for `encOptWith`. -/
def decOptWith {α : Type} (dec : Bytes → Option (α × Bytes)) :
    Bytes → Option (Option α × Bytes)
  | 0 :: rest => some (none, rest)
  | 1 :: rest => (dec rest).map fun p => (some p.1, p.2)
  | _ => none

/-- Modelled from the spec: tagged encoding of a captured error value. -/
def encErr : PyErr → Bytes
  | .protocolError m => 0 :: encStr m
  | .keyError m => 1 :: encStr m
  | .commandError m => 2 :: encStr m
  | .commandNotFound m => 3 :: encStr m
  | .notImplementedError => [4]
  | .unpicklingError => [5]
  | .connectionLost => [6]

/-- Modelled from the spec: decoder for `encErr`. -/
def decErr : Bytes → Option (PyErr × Bytes)
  | 0 :: rest => (decStr rest).map fun p => (.protocolError p.1, p.2)
  | 1 :: rest => (decStr rest).map fun p => (.keyError p.1, p.2)
  | 2 :: rest => (decStr rest).map fun p => (.commandError p.1, p.2)
  | 3 :: rest => (decStr rest).map fun p => (.commandNotFound p.1, p.2)
  | 4 :: rest => some (.notImplementedError, rest)
  | 5 :: rest => some (.unpicklingError, rest)
  | 6 :: rest => some (.connectionLost, rest)
  | _ => none

/-- Modelled from the spec: encoding of a result value. -/
def encRVal : RVal → Bytes
  | .val v => 0 :: encVal v
  | .exc e => 1 :: encErr e

/-- Modelled from the spec: decoder for `encRVal`. -/
def decRVal : Bytes → Option (RVal × Bytes)
  | 0 :: rest => (decVal rest).map fun p => (.val p.1, p.2)
  | 1 :: rest => (decErr rest).map fun p => (.exc p.1, p.2)
  | _ => none

/-- Modelled from the spec: serialize(message) at the Serialization Boundary
(pickle.dumps in MailboxConsumer.dump_data). -/
def serialize (m : Message) : Bytes :=
  encStr m.command ++ encStr m.sender ++ encStr m.target ++
  encListWith encVal m.args ++
  encListWith (encPairWith encStr encVal) m.kwargs ++
  encOptWith encStr m.ack ++ encOptWith encRVal m.result

/-- Modelled from the spec: deserialize(bytes) at the Serialization Boundary
(pickle.loads in MailboxConsumer.data_received); fails on payloads that do not
decode to a message. -/
def deserialize (b : Bytes) : Option Message :=
  match decStr b with
  | none => none
  | some (command, b1) =>
  match decStr b1 with
  | none => none
  | some (sender, b2) =>
  match decStr b2 with
  | none => none
  | some (target, b3) =>
  match decListWith decVal b3 with
  | none => none
  | some (args, b4) =>
  match decListWith (decPairWith decStr decVal) b4 with
  | none => none
  | some (kwargs, b5) =>
  match decOptWith decStr b5 with
  | none => none
  | some (ack, b6) =>
  match decOptWith decRVal b6 with
  | none => none
  | some (result, _) =>
    some { command := command, sender := sender, target := target,
           args := args, kwargs := kwargs, ack := ack, result := result }

/-- Modelled from the spec: a decoded wire frame, an opcode tag plus a
length-delimited payload (the FrameParser of pulsar/utils/websocket.py is not
part of the sources under verification). -/
structure Frame where
  opcode : Nat
  body : Bytes
  deriving DecidableEq, Repr

/-- Modelled from the spec: encode(payload, opcode) of the Frame Codec. -/
def frame_encode (payload : Bytes) (opcode : Nat) : Bytes :=
  opcode :: payload.length :: payload

/-- Modelled from the spec: pop one complete frame off the front of the
buffered byte stream, retaining unconsumed bytes; returns none while the
buffer holds no complete frame. -/
def frame_decode : Bytes → Option (Frame × Bytes)
  | op :: len :: rest =>
    if len ≤ rest.length then some (⟨op, rest.take len⟩, rest.drop len)
    else none
  | _ => none

/-- Resolution state of a Deferred (pulsar/async/defer.py futures as seen by
the mailbox layer). -/
inductive FutureState where
  | pending
  | resolved (r : RVal)
  | rejected (e : PyErr)
  deriving DecidableEq, Repr

/-- Dictionary assignment on an association list: set key k to value v,
removing any previous binding of k. -/
def setAssoc {α β : Type} [BEq α] (l : List (α × β)) (k : α) (v : β) :
    List (α × β) :=
  (k, v) :: (l.filter fun p => !(p.1 == k))

/-- State of one MailboxConsumer: the Pending-Reply Table
(_pending_responses), the environment of futures it refers to, the messages
written to the transport, and the frame parser buffer.  The handled field is
a specification-level log recording each message for which responde was
invoked; it has no counterpart in the Python state. -/
structure ConsumerState where
  pending : List (String × Nat) := []
  futures : List (Nat × FutureState) := []
  written : List Message := []
  buf : Bytes := []
  handled : List Message := []
  deriving DecidableEq, Repr

/-- Python truthiness of an optional string: an absent key and the empty
string are falsy. -/
def isTruthy : Option String → Bool
  | none => false
  | some s => !(s == "")

/-- Embeds MailboxConsumer.callback (mailbox.py lines 83-90): a falsy ack
raises ProtocolError; an ack missing from the Pending-Reply Table raises
KeyError; otherwise the entry is popped and its future resolved with the
result. -/
def MailboxConsumer.callback (s : ConsumerState) (ack : Option String)
    (result : Option RVal) : Except PyErr ConsumerState :=
  match ack with
  | none => .error (.protocolError "A callback without id")
  | some a =>
    if a == "" then .error (.protocolError "A callback without id")
    else
      match s.pending.lookup a with
      | none =>
        .error (.keyError ("Callback " ++ a ++ " not in pending callbacks"))
      | some d =>
        .ok { s with
          pending := s.pending.filter fun p => !(p.1 == a),
          futures := setAssoc s.futures d
            (.resolved (result.getD (.val .vnone))) }

/-- A locally known actor or a remote proxy handle, as returned by the actor
directory get_actor. -/
inductive ActorRef where
  | localActor (id : String)
  | proxy (id : String)
  deriving DecidableEq, Repr

/-- Modelled from the spec: an entry of the Command Registry.  The command
objects resolved by get_command live in pulsar/async/proxy.py, which is not
under the sources being verified; per the spec each declares whether it
requires an acknowledgement and is an executable contract receiving the
caller proxy and the message arguments. -/
structure Command where
  ack : Bool
  run : Option ActorRef → List Val → List (String × Val) → Except PyErr Val

/-- Dispatch environment of a consumer: the actor directory (get_actor) and
the command registry (get_command). -/
structure ActorEnv where
  actors : List (String × ActorRef) := []
  commands : List (String × Command) := []

/-- Embeds the non-callback part of the try block of
MailboxConsumer.responde (lines 98-110): resolve the target actor, fail on a
proxy target, resolve the caller and the command, then invoke the command. -/
def resolveAndRun (env : ActorEnv) (m : Message) : Except PyErr Val :=
  match env.actors.lookup m.target with
  | none => .error (.commandError ("unknown actor " ++ m.target))
  | some (.proxy _) => .error .notImplementedError
  | some (.localActor _) =>
    let caller := env.actors.lookup m.sender
    match env.commands.lookup m.command with
    | none => .error (.commandNotFound m.command)
    | some cmd => cmd.run caller m.args m.kwargs

/-- Embeds the try block of MailboxConsumer.responde (lines 94-110): the
callback branch updates the state and returns early with no result to report
back; any other branch produces a result value, and raised exceptions are
propagated to the caller to be captured there. -/
def dispatchTry (env : ActorEnv) (s : ConsumerState) (m : Message) :
    Except PyErr (ConsumerState × Option RVal) :=
  if m.command == "callback" then
    (MailboxConsumer.callback s m.ack m.result).map fun s1 => (s1, none)
  else
    (resolveAndRun env m).map fun v => (s, some (.val v))

/-- Embeds MailboxConsumer.dump_data (lines 122-124): serialize the message
and frame it with opcode 0x2. -/
def MailboxConsumer.dump_data (obj : Message) : Bytes :=
  frame_encode (serialize obj) 2

/-- Embeds MailboxConsumer.write (lines 126-130): when a consumer future is
given and the message has an ack key, register the future in the
Pending-Reply Table, then write the framed message to the transport. -/
def MailboxConsumer.write (s : ConsumerState) (data : Message)
    (consumer : Option Nat) : ConsumerState :=
  let s1 :=
    match consumer, data.ack with
    | some d, some a => { s with pending := setAssoc s.pending a d }
    | _, _ => s
  { s1 with written := s1.written ++ [data] }

/-- Embeds MailboxConsumer._responde (lines 115-120): when the original
message carried a truthy ack, write back a callback message holding the
result; always return the result so a failure can be logged. -/
def MailboxConsumer._responde (s : ConsumerState) (data : Message)
    (result : RVal) : ConsumerState × RVal :=
  if isTruthy data.ack then
    (MailboxConsumer.write s
      { command := "callback", result := some result, ack := data.ack } none,
     result)
  else (s, result)

/-- Embeds MailboxConsumer.responde (lines 92-113): run the try block; a
raised exception is captured as the result; unless the callback branch
returned early, hand the result to _responde. -/
def MailboxConsumer.responde (env : ActorEnv) (s : ConsumerState)
    (m : Message) : ConsumerState × RVal :=
  let s0 := { s with handled := s.handled ++ [m] }
  match dispatchTry env s0 m with
  | .ok (s1, none) => (s1, .val .vnone)
  | .ok (s1, some r) => MailboxConsumer._responde s1 m r
  | .error e => MailboxConsumer._responde s0 m (.exc e)

/-- Embeds the while loop of MailboxConsumer.data_received (lines 78-81):
pop decoded frames off the parser buffer one at a time and dispatch each
deserialized message; a payload that fails to deserialize raises out of the
loop (pickle.loads is not guarded by any handler), modelled by returning the
escaping error alongside the state reached so far.  The fuel argument is an
upper bound on the number of frames; each complete frame consumes at least
two buffered bytes, so the buffer length is always enough fuel. -/
def drainFrames (env : ActorEnv) :
    Nat → ConsumerState → ConsumerState × Option PyErr
  | 0, s => (s, none)
  | fuel + 1, s =>
    match frame_decode s.buf with
    | none => (s, none)
    | some (f, rest) =>
      match deserialize f.body with
      | none => ({ s with buf := rest }, some .unpicklingError)
      | some m =>
        drainFrames env fuel
          (MailboxConsumer.responde env { s with buf := rest } m).1

/-- Embeds MailboxConsumer.data_received (lines 75-81): feed the chunk into
the parser buffer and drain complete frames. -/
def MailboxConsumer.data_received (env : ActorEnv) (s : ConsumerState)
    (data : Bytes) : ConsumerState × Option PyErr :=
  drainFrames env (s.buf ++ data).length { s with buf := s.buf ++ data }

/-- Modelled from the spec: reaction to a connection-level failure (transport
closed or fatal framing error).  The connection teardown path lives in the
generic transport layer (pulsar/async/transports.py), which is not under the
sources being verified; the spec requires that every future currently
registered in the connection's Pending-Reply Table be rejected rather than
left pending, and the table emptied. -/
def connection_lost (s : ConsumerState) : ConsumerState :=
  { s with
    pending := [],
    futures := s.pending.foldl
      (fun fs p => setAssoc fs p.2 (FutureState.rejected .connectionLost))
      s.futures }

/-- Embeds create_request (lines 53-65).  get_command (pulsar/async/proxy.py,
not under the sources being verified) is modelled from the spec as the
registry lookup, raising CommandNotFound for an unknown name; the fresh token
of gen_unique_id is the freshId parameter, truncated to 8 characters as in
the code, and the identity of the freshly created Deferred is dId. -/
def create_request (env : ActorEnv) (command sender target : String)
    (args : Option (List Val)) (kwargs : Option (List (String × Val)))
    (freshId : String) (dId : Nat) :
    Except PyErr (Message × Option Nat) :=
  match env.commands.lookup command with
  | none => .error (.commandNotFound command)
  | some cmd =>
    let data : Message :=
      { command := command, sender := sender, target := target,
        args := args.getD [], kwargs := kwargs.getD [] }
    if cmd.ack then .ok ({ data with ack := some (freshId.take 8) }, some dId)
    else .ok (data, none)

/-- Arguments of one MailboxClient.request call. -/
structure ReqArgs where
  command : String
  sender : String := ""
  target : String := ""
  args : Option (List Val) := none
  kwargs : Option (List (String × Val)) := none
  freshId : String := ""
  dId : Nat := 0
  deriving DecidableEq, Repr

/-- State of a MailboxClient: the lazily created consumer (identified by a
number so distinct creations are distinguishable) and the state of that
single connection's consumer. -/
structure MailboxClientState where
  consumer : Option Nat := none
  nextConsumer : Nat := 0
  cstate : ConsumerState := {}
  deriving DecidableEq, Repr

/-- Embeds MailboxClient.request (lines 169-177).  Client.response of the
base class (pulsar/async/transports.py, not under the sources being
verified) is modelled from the spec as establishing the single connection
and allocating its consumer on first use; afterwards the request is built by
create_request and written to the consumer. -/
def MailboxClient.request (env : ActorEnv) (cl : MailboxClientState)
    (r : ReqArgs) : MailboxClientState × Except PyErr (Option Nat) :=
  let cl1 :=
    match cl.consumer with
    | none => { cl with consumer := some cl.nextConsumer,
                        nextConsumer := cl.nextConsumer + 1 }
    | some _ => cl
  match create_request env r.command r.sender r.target r.args r.kwargs
      r.freshId r.dId with
  | .error e => (cl1, .error e)
  | .ok (data, d) =>
    ({ cl1 with cstate := MailboxConsumer.write cl1.cstate data d }, .ok d)

/-- Run a sequence of MailboxClient.request calls, keeping the client state. -/
def requestAll (env : ActorEnv) (cl : MailboxClientState)
    (calls : List ReqArgs) : MailboxClientState :=
  calls.foldl (fun c r => (MailboxClient.request env c r).1) cl

/-- How an operation on an event loop is invoked from the thread signalling
it: directly, or scheduled via call_soon_threadsafe. -/
inductive LoopCall where
  | direct (op : String)
  | callSoonThreadsafe (op : String)
  deriving DecidableEq, Repr

/-- Structural embedding of MailboxClient.__init__ (lines 146-160): whether a
fresh event loop is created for a cpubound actor, what is scheduled onto the
actor's request loop, and what the handler bound to the finish event does. -/
structure MailboxClientInit where
  usesFreshLoop : Bool
  scheduledOnRequestloop : Option LoopCall
  finishHandler : LoopCall
  deriving DecidableEq, Repr

/-- Embeds MailboxClient.__init__ (lines 146-160): for a cpubound actor a new
event loop is created and starting it on its own thread is scheduled
thread-safely on the request loop; the finish event handler is the lambda of
line 159, which invokes event_loop.stop() directly. -/
def MailboxClient.init (cpubound : Bool) : MailboxClientInit :=
  { usesFreshLoop := cpubound,
    scheduledOnRequestloop :=
      if cpubound then some (.callSoonThreadsafe "start_on_thread") else none,
    finishHandler := .direct "event_loop.stop" }

/-- Discriminator: is the loop operation invoked through the thread-safe
scheduling primitive. -/
def isThreadsafeCall : LoopCall → Bool
  | .direct _ => false
  | .callSoonThreadsafe _ => true

/-- Discriminator: did a callback invocation raise ProtocolError. -/
def raisedProtocolError : Except PyErr ConsumerState → Bool
  | .error (.protocolError _) => true
  | _ => false

/-- Empty dispatch environment for concrete scenarios. -/
def env0 : ActorEnv := {}

/-- Scenario command requiring no acknowledgement. -/
def cmdNotify : Command := { ack := false, run := fun _ _ _ => .ok .vnone }

/-- Scenario command requiring an acknowledgement whose execution raises. -/
def cmdFail : Command :=
  { ack := true, run := fun _ _ _ => .error (.commandError "boom") }

/-- Scenario environment: one local actor and two registered commands. -/
def env1 : ActorEnv :=
  { actors := [("A", .localActor "A")],
    commands := [("notify", cmdNotify), ("fail", cmdFail)] }

/-- Scenario consumer state with one pending reply registered under ack abc. -/
def cexState : ConsumerState :=
  { pending := [("abc", 0)], futures := [(0, .pending)] }

/-- Scenario inbound callback message carrying the unregistered ack zzz. -/
def cbZzz : Message := { command := "callback", ack := some "zzz" }

/-- Scenario inbound callback message matching the registered ack abc. -/
def cbAbc : Message :=
  { command := "callback", ack := some "abc",
    result := some (.val (.vstr "hi")) }

/-- Scenario duplicate callback message for the already resolved ack abc. -/
def cbAbc2 : Message := { command := "callback", ack := some "abc" }

/-- Scenario command message whose execution raises, sent with an ack. -/
def mFail : Message :=
  { command := "fail", sender := "B", target := "A", ack := some "aaaaaaaa" }

/-- Scenario fire-and-forget command message. -/
def mNotify : Message := { command := "notify", sender := "B", target := "A" }

/-- Scenario request arguments for the notify command. -/
def reqNotify : ReqArgs := { command := "notify", sender := "B", target := "A" }


theorem lookup_filter_ne {α β : Type} [BEq α] [LawfulBEq α]
    (l : List (α × β)) (k k1 : α) (h : k ≠ k1) :
    (l.filter fun p => !(p.1 == k1)).lookup k = l.lookup k := by
  induction l with
  | nil => rfl
  | cons p t ih =>
    obtain ⟨pk, pv⟩ := p
    by_cases hp : pk = k1
    · subst hp
      have hdrop : (!(pk == pk)) = false := by simp
      have hk : (k == pk) = false := by simp [h]
      rw [List.filter_cons]
      simp only [hdrop, Bool.false_eq_true, if_false]
      rw [List.lookup_cons, hk]
      exact ih
    · have hkeep : (!(pk == k1)) = true := by simp [hp]
      rw [List.filter_cons]
      simp only [hkeep, if_true]
      rw [List.lookup_cons, List.lookup_cons]
      cases hkp : k == pk with
      | false => exact ih
      | true => rfl

theorem lookup_filter_self_none {α β : Type} [BEq α] [LawfulBEq α]
    (l : List (α × β)) (a : α) :
    (l.filter fun p => !(p.1 == a)).lookup a = none := by
  rw [List.lookup_eq_none_iff]
  intro p hp
  have h3 : p.1 ≠ a := by simpa using (List.mem_filter.mp hp).2
  simp [bne_iff_ne]
  exact Ne.symm h3

theorem lookup_setAssoc_self {α β : Type} [BEq α] [LawfulBEq α]
    (l : List (α × β)) (k : α) (v : β) :
    (setAssoc l k v).lookup k = some v := by
  simp [setAssoc]

theorem lookup_setAssoc_ne {α β : Type} [BEq α] [LawfulBEq α]
    (l : List (α × β)) (k k1 : α) (v : β) (h : k ≠ k1) :
    (setAssoc l k1 v).lookup k = l.lookup k := by
  have hk : (k == k1) = false := by simp [h]
  simp only [setAssoc, List.lookup_cons, hk]
  exact lookup_filter_ne l k k1 h

theorem lookup_mem_snd {α β : Type} [BEq α] [LawfulBEq α]
    (l : List (α × β)) (a : α) (b : β) (h : l.lookup a = some b) :
    b ∈ l.map Prod.snd := by
  obtain ⟨l1, l2, rfl, -⟩ := List.lookup_eq_some_iff.mp h
  simp

theorem lookup_foldl_reject_not_mem (l : List (String × Nat))
    (fs : List (Nat × FutureState)) (d : Nat) (h : d ∉ l.map Prod.snd) :
    ((l.foldl
        (fun fs p => setAssoc fs p.2 (FutureState.rejected .connectionLost))
        fs).lookup d) = fs.lookup d := by
  induction l generalizing fs with
  | nil => rfl
  | cons p t ih =>
    simp only [List.map_cons, List.mem_cons, not_or] at h
    rw [List.foldl_cons, ih _ h.2, lookup_setAssoc_ne _ _ _ _ h.1]

theorem lookup_foldl_reject_mem (l : List (String × Nat))
    (fs : List (Nat × FutureState)) (d : Nat) (h : d ∈ l.map Prod.snd) :
    ((l.foldl
        (fun fs p => setAssoc fs p.2 (FutureState.rejected .connectionLost))
        fs).lookup d) = some (FutureState.rejected .connectionLost) := by
  induction l generalizing fs with
  | nil => simp at h
  | cons p t ih =>
    by_cases hd : d ∈ t.map Prod.snd
    · rw [List.foldl_cons]
      exact ih _ hd
    · have hdp : d = p.2 := by
        simp only [List.map_cons, List.mem_cons] at h
        tauto
      rw [List.foldl_cons, lookup_foldl_reject_not_mem t _ d hd, hdp,
        lookup_setAssoc_self]

theorem callback_ok_fields (s : ConsumerState) (ack : Option String)
    (r : Option RVal) (s1 : ConsumerState)
    (h : MailboxConsumer.callback s ack r = .ok s1) :
    s1.handled = s.handled ∧ s1.written = s.written ∧ s1.buf = s.buf := by
  unfold MailboxConsumer.callback at h
  split at h
  · cases h
  · split at h
    · cases h
    · split at h
      · cases h
      · cases h
        simp

theorem _responde_fields (s : ConsumerState) (m : Message) (r : RVal) :
    (MailboxConsumer._responde s m r).1.handled = s.handled ∧
    (MailboxConsumer._responde s m r).1.buf = s.buf ∧
    (MailboxConsumer._responde s m r).1.futures = s.futures ∧
    (MailboxConsumer._responde s m r).1.pending = s.pending := by
  unfold MailboxConsumer._responde
  split
  · unfold MailboxConsumer.write
    simp
  · simp

theorem responde_fields (env : ActorEnv) (s : ConsumerState) (m : Message) :
    (MailboxConsumer.responde env s m).1.handled = s.handled ++ [m] ∧
    (MailboxConsumer.responde env s m).1.buf = s.buf := by
  simp only [MailboxConsumer.responde]
  split
  · rename_i s1 h
    unfold dispatchTry at h
    split at h
    · cases hc : MailboxConsumer.callback
          { s with handled := s.handled ++ [m] } m.ack m.result with
      | error e => rw [hc] at h; simp [Except.map] at h
      | ok s2 =>
        rw [hc] at h
        simp only [Except.map, Except.ok.injEq, Prod.mk.injEq] at h
        obtain ⟨rfl, -⟩ := h
        have := callback_ok_fields _ _ _ _ hc
        simp only [this.1, this.2.2]
        simp
    · cases hr : resolveAndRun env m with
      | error e => rw [hr] at h; simp [Except.map] at h
      | ok v => rw [hr] at h; simp [Except.map] at h
  · rename_i s1 rr h
    unfold dispatchTry at h
    split at h
    · cases hc : MailboxConsumer.callback
          { s with handled := s.handled ++ [m] } m.ack m.result with
      | error e => rw [hc] at h; simp [Except.map] at h
      | ok s2 => rw [hc] at h; simp [Except.map] at h
    · cases hr : resolveAndRun env m with
      | error e => rw [hr] at h; simp [Except.map] at h
      | ok v =>
        rw [hr] at h
        simp only [Except.map, Except.ok.injEq, Prod.mk.injEq] at h
        obtain ⟨rfl, -⟩ := h
        have := _responde_fields { s with handled := s.handled ++ [m] } m rr
        simp only [this.1, this.2.1]
        simp
  · rename_i e h
    have := _responde_fields { s with handled := s.handled ++ [m] } m (.exc e)
    simp only [this.1, this.2.1]
    simp

theorem decStr_encStr (s : String) (r : Bytes) :
    decStr (encStr s ++ r) = some (s, r) := by
  obtain ⟨cs⟩ := s
  have hlen : (cs.map Char.toNat).length = (String.mk cs).length := by simp
  simp only [encStr, List.cons_append, decStr]
  rw [if_pos (by simp), List.take_left' hlen, List.drop_left' hlen,
    List.map_map]
  have : cs.map (Char.ofNat ∘ Char.toNat) = cs := by
    simp [Function.comp_def]
  rw [this]

theorem decVal_encVal (v : Val) (r : Bytes) :
    decVal (encVal v ++ r) = some (v, r) := by
  cases v with
  | vstr s => simp [encVal, decVal, decStr_encStr]
  | vint i =>
    by_cases h : i < 0
    · simp only [encVal, if_pos h, List.cons_append, List.nil_append, decVal]
      have : (((-i).toNat : Int)) = -i := Int.toNat_of_nonneg (by omega)
      rw [this]
      simp
    · simp only [encVal, if_neg h, List.cons_append, List.nil_append, decVal]
      have : ((i.toNat : Int)) = i := Int.toNat_of_nonneg (by omega)
      rw [this]
  | vbool b => cases b <;> simp [encVal, decVal]
  | vnone => simp [encVal, decVal]

theorem decListCore_encCat {α : Type} (dec : Bytes → Option (α × Bytes))
    (enc : α → Bytes) (xs : List α) (r : Bytes)
    (h : ∀ x ∈ xs, ∀ r1, dec (enc x ++ r1) = some (x, r1)) :
    decListCore dec xs.length (xs.foldr (fun x acc => enc x ++ acc) [] ++ r) =
      some (xs, r) := by
  induction xs with
  | nil => simp [decListCore]
  | cons x t ih =>
    have hx := h x (List.mem_cons_self x t)
    have ht := ih (fun y hy r1 => h y (List.mem_cons_of_mem x hy) r1)
    simp only [List.foldr_cons, List.length_cons, decListCore,
      List.append_assoc, hx, ht]

theorem decListWith_encListWith {α : Type} (dec : Bytes → Option (α × Bytes))
    (enc : α → Bytes) (xs : List α) (r : Bytes)
    (h : ∀ x ∈ xs, ∀ r1, dec (enc x ++ r1) = some (x, r1)) :
    decListWith dec (encListWith enc xs ++ r) = some (xs, r) := by
  simp only [encListWith, List.cons_append, decListWith]
  exact decListCore_encCat dec enc xs r h

theorem decPairWith_encPairWith {α β : Type} (da : Bytes → Option (α × Bytes))
    (db : Bytes → Option (β × Bytes)) (ea : α → Bytes) (eb : β → Bytes)
    (p : α × β) (r : Bytes)
    (ha : ∀ r1, da (ea p.1 ++ r1) = some (p.1, r1))
    (hb : ∀ r1, db (eb p.2 ++ r1) = some (p.2, r1)) :
    decPairWith da db (encPairWith ea eb p ++ r) = some (p, r) := by
  simp only [encPairWith, decPairWith, List.append_assoc, ha, hb]

theorem decOptWith_encOptWith {α : Type} (dec : Bytes → Option (α × Bytes))
    (enc : α → Bytes) (o : Option α) (r : Bytes)
    (h : ∀ x r1, dec (enc x ++ r1) = some (x, r1)) :
    decOptWith dec (encOptWith enc o ++ r) = some (o, r) := by
  cases o with
  | none => simp [encOptWith, decOptWith]
  | some x => simp [encOptWith, decOptWith, h x r]

theorem decErr_encErr (e : PyErr) (r : Bytes) :
    decErr (encErr e ++ r) = some (e, r) := by
  cases e <;> simp [encErr, decErr, decStr_encStr]

theorem decRVal_encRVal (v : RVal) (r : Bytes) :
    decRVal (encRVal v ++ r) = some (v, r) := by
  cases v with
  | val x => simp [encRVal, decRVal, decVal_encVal]
  | exc e => simp [encRVal, decRVal, decErr_encErr]

theorem decListWith_args (xs : List Val) (r : Bytes) :
    decListWith decVal (encListWith encVal xs ++ r) = some (xs, r) :=
  decListWith_encListWith decVal encVal xs r (fun x _ r1 => decVal_encVal x r1)

theorem decListWith_kwargs (xs : List (String × Val)) (r : Bytes) :
    decListWith (decPairWith decStr decVal)
      (encListWith (encPairWith encStr encVal) xs ++ r) = some (xs, r) :=
  decListWith_encListWith _ _ xs r
    (fun p _ r1 => decPairWith_encPairWith decStr decVal encStr encVal p r1
      (fun r2 => decStr_encStr p.1 r2) (fun r2 => decVal_encVal p.2 r2))

theorem decOptWith_ack (o : Option String) (r : Bytes) :
    decOptWith decStr (encOptWith encStr o ++ r) = some (o, r) :=
  decOptWith_encOptWith decStr encStr o r (fun x r1 => decStr_encStr x r1)

theorem decOptWith_result (o : Option RVal) (r : Bytes) :
    decOptWith decRVal (encOptWith encRVal o ++ r) = some (o, r) :=
  decOptWith_encOptWith decRVal encRVal o r (fun x r1 => decRVal_encRVal x r1)

theorem deserialize_serialize_append (m : Message) (r : Bytes) :
    deserialize (serialize m ++ r) = some m := by
  simp only [serialize, List.append_assoc, deserialize, decStr_encStr,
    decListWith_args, decListWith_kwargs, decOptWith_ack, decOptWith_result]

theorem frame_decode_frame_encode (p : Bytes) (op : Nat) (r : Bytes) :
    frame_decode (frame_encode p op ++ r) = some (⟨op, p⟩, r) := by
  simp only [frame_encode, List.cons_append, frame_decode]
  rw [if_pos (by simp), List.take_left, List.drop_left]

/-- Claim C1 counterexample: a callback message whose ack zzz was never
registered in the Pending-Reply Table makes MailboxConsumer.callback raise
KeyError, not ProtocolError, refuting the claim as stated. -/
theorem c1_unknown_ack_keyerror_cex :
    MailboxConsumer.callback cexState cbZzz.ack cbZzz.result =
      .error (.keyError "Callback zzz not in pending callbacks") ∧
    raisedProtocolError
      (MailboxConsumer.callback cexState cbZzz.ack cbZzz.result) = false := by
  constructor <;> rfl

/-- Claim C1 (amended): a callback whose nonempty ack id is not in the
Pending-Reply Table raises KeyError, while a callback whose ack is missing or
empty raises ProtocolError; in either case responde leaves the table and
every pending future unaffected. -/
theorem c1_unknown_ack_raises (env : ActorEnv) (s : ConsumerState)
    (m : Message) (a : String)
    (hcmd : m.command = "callback") (hack : m.ack = some a) (ha : a ≠ "")
    (hlk : s.pending.lookup a = none) :
    MailboxConsumer.callback s m.ack m.result =
      .error (.keyError ("Callback " ++ a ++ " not in pending callbacks")) ∧
    MailboxConsumer.callback s none m.result =
      .error (.protocolError "A callback without id") ∧
    MailboxConsumer.callback s (some "") m.result =
      .error (.protocolError "A callback without id") ∧
    (MailboxConsumer.responde env s m).1.pending = s.pending ∧
    (MailboxConsumer.responde env s m).1.futures = s.futures := by
  have hne : (a == "") = false := by simp [ha]
  have hred : MailboxConsumer.responde env s m =
      MailboxConsumer._responde { s with handled := s.handled ++ [m] } m
        (.exc (.keyError ("Callback " ++ a ++ " not in pending callbacks"))) := by
    have hcc : (m.command == "callback") = true := by simp [hcmd]
    have hcbm : MailboxConsumer.callback { s with handled := s.handled ++ [m] }
        m.ack m.result =
        .error (.keyError ("Callback " ++ a ++ " not in pending callbacks")) := by
      rw [hack]
      simp [MailboxConsumer.callback, hne, hlk]
    simp [MailboxConsumer.responde, dispatchTry, hcc, hcbm, Except.map]
  refine ⟨?_, ?_, ?_, ?_, ?_⟩
  · rw [hack]
    simp [MailboxConsumer.callback, hne, hlk]
  · rfl
  · rfl
  · rw [hred, (_responde_fields _ _ _).2.2.2]
  · rw [hred, (_responde_fields _ _ _).2.2.1]

/-- Claim C1 witness: the amended statement instantiated at the concrete
scenario of an unregistered callback ack zzz. -/
theorem c1_unknown_ack_raises_witness :
    MailboxConsumer.callback cexState cbZzz.ack cbZzz.result =
      .error (.keyError ("Callback " ++ "zzz" ++ " not in pending callbacks")) ∧
    MailboxConsumer.callback cexState none cbZzz.result =
      .error (.protocolError "A callback without id") ∧
    MailboxConsumer.callback cexState (some "") cbZzz.result =
      .error (.protocolError "A callback without id") ∧
    (MailboxConsumer.responde env0 cexState cbZzz).1.pending =
      cexState.pending ∧
    (MailboxConsumer.responde env0 cexState cbZzz).1.futures =
      cexState.futures :=
  c1_unknown_ack_raises env0 cexState cbZzz "zzz" rfl rfl (by decide) rfl

/-- Claim C9 counterexample: for a CPU-bound actor, the handler bound to the
finish event invokes event_loop.stop() directly; it is not an invocation of
the thread-safe scheduling primitive, refuting the claim as stated. -/
theorem c9_finish_direct_stop_cex :
    (MailboxClient.init true).finishHandler = .direct "event_loop.stop" ∧
    isThreadsafeCall (MailboxClient.init true).finishHandler = false := by
  constructor <;> rfl

/-- Claim C9 (amended): for a CPU-bound actor the client creates a fresh
event loop and schedules its start on a dedicated thread onto the request
loop via call_soon_threadsafe, but when the finish event fires the loop is
stopped by a direct event_loop.stop() call, not through a thread-safe
cross-loop scheduling primitive. -/
theorem c9_cpubound_loop_bridging :
    (MailboxClient.init true).usesFreshLoop = true ∧
    (MailboxClient.init true).scheduledOnRequestloop =
      some (.callSoonThreadsafe "start_on_thread") ∧
    (MailboxClient.init true).finishHandler = .direct "event_loop.stop" ∧
    isThreadsafeCall (MailboxClient.init true).finishHandler = false :=
  ⟨rfl, rfl, rfl, rfl⟩

/-- Claim C6: deserializing the serialization of any valid message (the
payload produced by MailboxConsumer.dump_data before framing) yields the
message back, and decoding the framed output of dump_data recovers exactly
the opcode 0x2 frame holding that payload. -/
theorem c6_serialization_roundtrip (m : Message) :
    deserialize (serialize m) = some m ∧
    frame_decode (MailboxConsumer.dump_data m) =
      some (⟨2, serialize m⟩, []) := by
  constructor
  · have h := deserialize_serialize_append m []
    simpa using h
  · unfold MailboxConsumer.dump_data
    have h := frame_decode_frame_encode (serialize m) 2 []
    simpa using h

/-- Claim C7: on a connection-level failure, every future registered in the
connection's Pending-Reply Table is rejected rather than left pending, and
the table is emptied. -/
theorem c7_connection_lost_rejects_pending (s : ConsumerState) (a : String)
    (d : Nat) (h : s.pending.lookup a = some d) :
    (connection_lost s).futures.lookup d =
      some (.rejected .connectionLost) ∧
    (connection_lost s).pending = [] := by
  refine ⟨?_, rfl⟩
  show ((s.pending.foldl
      (fun fs p => setAssoc fs p.2 (FutureState.rejected .connectionLost))
      s.futures).lookup d) = some (FutureState.rejected .connectionLost)
  exact lookup_foldl_reject_mem s.pending s.futures d (lookup_mem_snd _ _ _ h)

/-- Claim C7 witness: the rejection applied to the scenario state holding one
pending reply under ack abc for future 0. -/
theorem c7_connection_lost_rejects_pending_witness :
    (connection_lost cexState).futures.lookup 0 =
      some (.rejected .connectionLost) ∧
    (connection_lost cexState).pending = [] :=
  c7_connection_lost_rejects_pending cexState "abc" 0 rfl

theorem request_consumer (env : ActorEnv) (cl : MailboxClientState)
    (r : ReqArgs) :
    (MailboxClient.request env cl r).1.consumer =
      match cl.consumer with
      | none => some cl.nextConsumer
      | some c => some c := by
  unfold MailboxClient.request
  cases hc : cl.consumer <;>
    cases hcr : create_request env r.command r.sender r.target r.args
        r.kwargs r.freshId r.dId <;>
      simp [hc, hcr]

theorem requestAll_keeps_consumer (env : ActorEnv) (cl : MailboxClientState)
    (calls : List ReqArgs) (c : Nat) (h : cl.consumer = some c) :
    (requestAll env cl calls).consumer = some c := by
  induction calls generalizing cl with
  | nil => simpa [requestAll] using h
  | cons r t ih =>
    have h1 : (MailboxClient.request env cl r).1.consumer = some c := by
      rw [request_consumer, h]
    simp only [requestAll, List.foldl_cons]
    exact ih _ h1

/-- Claim C8: starting from a client with no consumer, the first request
creates the consumer and every later request in the sequence reuses that
same consumer object: the consumer field stays the identity allocated by the
first call. -/
theorem c8_single_consumer_reuse (env : ActorEnv) (cl : MailboxClientState)
    (r0 : ReqArgs) (calls : List ReqArgs) (h : cl.consumer = none) :
    (requestAll env cl (r0 :: calls)).consumer = some cl.nextConsumer := by
  have h1 : (MailboxClient.request env cl r0).1.consumer =
      some cl.nextConsumer := by
    rw [request_consumer, h]
  simp only [requestAll, List.foldl_cons]
  exact requestAll_keeps_consumer env _ calls _ h1

/-- Claim C8 witness: two requests on a fresh client allocate consumer 0 on
the first call and keep it on the second. -/
theorem c8_single_consumer_reuse_witness :
    (requestAll env1 {} [reqNotify, reqNotify]).consumer = some 0 :=
  c8_single_consumer_reuse env1 {} reqNotify [reqNotify] rfl

/-- Claim C3: an exception raised while resolving the target, resolving the
command or executing the command is captured inside responde; when the
message carries a truthy ack a callback message holding the captured
exception is written back over the same connection, and with no ack nothing
is written; the captured error is surfaced as the logged result, the rest of
the consumer state is untouched, and neither this message nor any subsequent
message fails to be dispatched. -/
theorem c3_responde_captures_errors (env : ActorEnv) (s : ConsumerState)
    (m m2 : Message) (e : PyErr)
    (hcmd : m.command ≠ "callback")
    (hrun : resolveAndRun env m = .error e) :
    (isTruthy m.ack = true →
      (MailboxConsumer.responde env s m).1.written =
        s.written ++
          [{ command := "callback", result := some (.exc e),
             ack := m.ack }]) ∧
    (isTruthy m.ack = false →
      (MailboxConsumer.responde env s m).1.written = s.written) ∧
    (MailboxConsumer.responde env s m).2 = .exc e ∧
    (MailboxConsumer.responde env s m).1.pending = s.pending ∧
    (MailboxConsumer.responde env s m).1.futures = s.futures ∧
    (MailboxConsumer.responde env s m).1.handled = s.handled ++ [m] ∧
    (MailboxConsumer.responde env
        (MailboxConsumer.responde env s m).1 m2).1.handled =
      s.handled ++ [m, m2] := by
  have hcc : (m.command == "callback") = false := by simp [hcmd]
  have hred : MailboxConsumer.responde env s m =
      MailboxConsumer._responde { s with handled := s.handled ++ [m] } m
        (.exc e) := by
    simp [MailboxConsumer.responde, dispatchTry, hcc, hrun, Except.map]
  refine ⟨?_, ?_, ?_, ?_, ?_, ?_, ?_⟩
  · intro ht
    rw [hred]
    simp [MailboxConsumer._responde, ht, MailboxConsumer.write]
  · intro hf
    rw [hred]
    simp [MailboxConsumer._responde, hf]
  · rw [hred]
    unfold MailboxConsumer._responde
    split <;> rfl
  · rw [hred, (_responde_fields _ _ _).2.2.2]
  · rw [hred, (_responde_fields _ _ _).2.2.1]
  · exact (responde_fields env s m).1
  · rw [(responde_fields env _ m2).1, (responde_fields env s m).1,
      List.append_assoc]
    rfl

/-- Claim C3 witness: the captured failure of the scenario command fail, sent
with an ack, is written back as a callback message; a notify message is still
dispatched afterwards. -/
theorem c3_responde_captures_errors_witness :
    mFail.command ≠ "callback" ∧
    resolveAndRun env1 mFail = .error (.commandError "boom") ∧
    ((isTruthy mFail.ack = true →
      (MailboxConsumer.responde env1 {} mFail).1.written =
        ({} : ConsumerState).written ++
          [{ command := "callback",
             result := some (.exc (.commandError "boom")),
             ack := mFail.ack }]) ∧
    (isTruthy mFail.ack = false →
      (MailboxConsumer.responde env1 {} mFail).1.written =
        ({} : ConsumerState).written) ∧
    (MailboxConsumer.responde env1 {} mFail).2 =
      .exc (.commandError "boom") ∧
    (MailboxConsumer.responde env1 {} mFail).1.pending =
      ({} : ConsumerState).pending ∧
    (MailboxConsumer.responde env1 {} mFail).1.futures =
      ({} : ConsumerState).futures ∧
    (MailboxConsumer.responde env1 {} mFail).1.handled =
      ({} : ConsumerState).handled ++ [mFail] ∧
    (MailboxConsumer.responde env1
        (MailboxConsumer.responde env1 {} mFail).1 mNotify).1.handled =
      ({} : ConsumerState).handled ++ [mFail, mNotify]) :=
  ⟨by decide, rfl,
    c3_responde_captures_errors env1 {} mFail mNotify (.commandError "boom")
      (by decide) rfl⟩

/-- Claim C10: an inbound callback message whose ack lookup fails raises
inside the dispatch try block, and because the inbound message itself
carries the ack key the captured error is written back over the same
connection as a new callback message reusing the inbound ack id, rather than
being only logged locally; the table and the futures are untouched. -/
theorem c10_unknown_callback_error_written_back (env : ActorEnv)
    (s : ConsumerState) (m : Message) (a : String)
    (hcmd : m.command = "callback") (hack : m.ack = some a) (ha : a ≠ "")
    (hlk : s.pending.lookup a = none) :
    (MailboxConsumer.responde env s m).1.written =
      s.written ++
        [{ command := "callback",
           result := some (.exc (.keyError
             ("Callback " ++ a ++ " not in pending callbacks"))),
           ack := some a }] ∧
    (MailboxConsumer.responde env s m).1.pending = s.pending ∧
    (MailboxConsumer.responde env s m).1.futures = s.futures := by
  have hne : (a == "") = false := by simp [ha]
  have hred : MailboxConsumer.responde env s m =
      MailboxConsumer._responde { s with handled := s.handled ++ [m] } m
        (.exc (.keyError
          ("Callback " ++ a ++ " not in pending callbacks"))) := by
    have hcc : (m.command == "callback") = true := by simp [hcmd]
    have hcbm : MailboxConsumer.callback { s with handled := s.handled ++ [m] }
        m.ack m.result =
        .error (.keyError ("Callback " ++ a ++ " not in pending callbacks")) := by
      rw [hack]
      simp [MailboxConsumer.callback, hne, hlk]
    simp [MailboxConsumer.responde, dispatchTry, hcc, hcbm, Except.map]
  refine ⟨?_, ?_, ?_⟩
  · rw [hred]
    have ht : isTruthy (some a) = true := by simp [isTruthy, ha]
    simp [MailboxConsumer._responde, MailboxConsumer.write, hack, ht]
  · rw [hred, (_responde_fields _ _ _).2.2.2]
  · rw [hred, (_responde_fields _ _ _).2.2.1]

/-- Claim C10 witness: the unregistered callback ack zzz makes the consumer
write back a callback message carrying the KeyError under the same ack. -/
theorem c10_unknown_callback_error_written_back_witness :
    (MailboxConsumer.responde env0 cexState cbZzz).1.written =
      cexState.written ++
        [{ command := "callback",
           result := some (.exc (.keyError
             ("Callback " ++ "zzz" ++ " not in pending callbacks"))),
           ack := some "zzz" }] ∧
    (MailboxConsumer.responde env0 cexState cbZzz).1.pending =
      cexState.pending ∧
    (MailboxConsumer.responde env0 cexState cbZzz).1.futures =
      cexState.futures :=
  c10_unknown_callback_error_written_back env0 cexState cbZzz "zzz"
    rfl rfl (by decide) rfl

theorem responde_unknown_callback_futures (env : ActorEnv)
    (s : ConsumerState) (m : Message) (a : String)
    (hcmd : m.command = "callback") (hack : m.ack = some a) (ha : a ≠ "")
    (hlk : s.pending.lookup a = none) :
    (MailboxConsumer.responde env s m).1.futures = s.futures := by
  have hne : (a == "") = false := by simp [ha]
  have hcc : (m.command == "callback") = true := by simp [hcmd]
  have hcbm : MailboxConsumer.callback { s with handled := s.handled ++ [m] }
      m.ack m.result =
      .error (.keyError ("Callback " ++ a ++ " not in pending callbacks")) := by
    rw [hack]
    simp [MailboxConsumer.callback, hne, hlk]
  have hred : MailboxConsumer.responde env s m =
      MailboxConsumer._responde { s with handled := s.handled ++ [m] } m
        (.exc (.keyError
          ("Callback " ++ a ++ " not in pending callbacks"))) := by
    simp [MailboxConsumer.responde, dispatchTry, hcc, hcbm, Except.map]
  rw [hred, (_responde_fields _ _ _).2.2.1]

/-- Claim C4: a callback whose ack id is registered in the Pending-Reply
Table removes the entry and resolves its future with the message result;
nothing is written back; a second callback message for the same ack id fails
the lookup and leaves the futures unchanged, so the future is resolved at
most once. -/
theorem c4_callback_resolves_once (env : ActorEnv) (s : ConsumerState)
    (m m2 : Message) (a : String) (d : Nat)
    (hcmd : m.command = "callback") (hack : m.ack = some a) (ha : a ≠ "")
    (hlk : s.pending.lookup a = some d)
    (hcmd2 : m2.command = "callback") (hack2 : m2.ack = some a) :
    (MailboxConsumer.responde env s m).1.pending.lookup a = none ∧
    (MailboxConsumer.responde env s m).1.futures.lookup d =
      some (.resolved (m.result.getD (.val .vnone))) ∧
    (MailboxConsumer.responde env s m).1.written = s.written ∧
    (MailboxConsumer.responde env
        (MailboxConsumer.responde env s m).1 m2).1.futures =
      (MailboxConsumer.responde env s m).1.futures := by
  have hne : (a == "") = false := by simp [ha]
  have hcc : (m.command == "callback") = true := by simp [hcmd]
  have hcb : MailboxConsumer.callback { s with handled := s.handled ++ [m] }
      m.ack m.result =
      .ok { s with
        handled := s.handled ++ [m],
        pending := s.pending.filter fun p => !(p.1 == a),
        futures := setAssoc s.futures d
          (.resolved (m.result.getD (.val .vnone))) } := by
    rw [hack]
    simp [MailboxConsumer.callback, hne, hlk]
  have hred : MailboxConsumer.responde env s m =
      ({ s with
          handled := s.handled ++ [m],
          pending := s.pending.filter fun p => !(p.1 == a),
          futures := setAssoc s.futures d
            (.resolved (m.result.getD (.val .vnone))) }, .val .vnone) := by
    simp [MailboxConsumer.responde, dispatchTry, hcc, hcb, Except.map]
  have hpend2 : (MailboxConsumer.responde env s m).1.pending.lookup a =
      none := by
    rw [hred]
    exact lookup_filter_self_none s.pending a
  refine ⟨hpend2, ?_, ?_, ?_⟩
  · rw [hred]
    exact lookup_setAssoc_self _ _ _
  · rw [hred]
  · exact responde_unknown_callback_futures env _ m2 a hcmd2 hack2 ha hpend2

/-- Claim C4 witness: the registered ack abc resolves future 0 with the
carried result exactly once; the duplicate callback leaves the futures as
they are. -/
theorem c4_callback_resolves_once_witness :
    (MailboxConsumer.responde env0 cexState cbAbc).1.pending.lookup "abc" =
      none ∧
    (MailboxConsumer.responde env0 cexState cbAbc).1.futures.lookup 0 =
      some (.resolved (cbAbc.result.getD (.val .vnone))) ∧
    (MailboxConsumer.responde env0 cexState cbAbc).1.written =
      cexState.written ∧
    (MailboxConsumer.responde env0
        (MailboxConsumer.responde env0 cexState cbAbc).1 cbAbc2).1.futures =
      (MailboxConsumer.responde env0 cexState cbAbc).1.futures :=
  c4_callback_resolves_once env0 cexState cbAbc cbAbc2 "abc" 0
    rfl rfl (by decide) rfl rfl rfl

/-- Claim C5: a request built by create_request carries an ack key and
returns a fresh future exactly when the resolved command declares that it
requires an acknowledgement; when no future is minted,
MailboxConsumer.write leaves the Pending-Reply Table unchanged and only
appends the message to the transport. -/
theorem c5_create_request_ack_iff (env : ActorEnv)
    (command sender target : String) (args : Option (List Val))
    (kwargs : Option (List (String × Val))) (freshId : String) (dId : Nat)
    (cmd : Command) (data : Message) (d : Option Nat) (st : ConsumerState)
    (hcmd : env.commands.lookup command = some cmd)
    (hreq : create_request env command sender target args kwargs freshId
      dId = .ok (data, d)) :
    data.ack.isSome = cmd.ack ∧
    d.isSome = cmd.ack ∧
    (d = none →
      (MailboxConsumer.write st data d).pending = st.pending ∧
      MailboxConsumer.write st data d =
        { st with written := st.written ++ [data] }) := by
  cases hA : cmd.ack with
  | true =>
    simp [create_request, hcmd, hA] at hreq
    obtain ⟨rfl, rfl⟩ := hreq
    refine ⟨rfl, rfl, ?_⟩
    intro hfalse
    cases hfalse
  | false =>
    simp [create_request, hcmd, hA] at hreq
    obtain ⟨rfl, rfl⟩ := hreq
    refine ⟨rfl, rfl, fun _ => ⟨rfl, rfl⟩⟩

/-- Claim C5 witness: the scenario command notify declares no
acknowledgement, the built request has no ack key and no future, and the
write leaves the table unchanged. -/
theorem c5_create_request_ack_iff_witness :
    env1.commands.lookup "notify" = some cmdNotify ∧
    create_request env1 "notify" "B" "A" none none "xyz" 7 =
      .ok (mNotify, none) ∧
    (mNotify.ack.isSome = cmdNotify.ack ∧
    (none : Option Nat).isSome = cmdNotify.ack ∧
    ((none : Option Nat) = none →
      (MailboxConsumer.write cexState mNotify none).pending =
        cexState.pending ∧
      MailboxConsumer.write cexState mNotify none =
        { cexState with written := cexState.written ++ [mNotify] })) :=
  ⟨rfl, rfl,
    c5_create_request_ack_iff env1 "notify" "B" "A" none none "xyz" 7
      cmdNotify mNotify none cexState rfl rfl⟩

/-- Claim C2 counterexample: a frame whose payload cannot be deserialized is
not reported as a SerializationError and does crash the read loop: the
unpickling error escapes data_received, no failure response is written, the
message is not logged-and-dropped, and a valid frame following it in the
same chunk is never dispatched. -/
theorem c2_deserialize_failure_escapes_cex :
    MailboxConsumer.data_received env0 {} [2, 1, 99] =
      ({}, some .unpicklingError) ∧
    (MailboxConsumer.data_received env0 {}
        ([2, 1, 99] ++ MailboxConsumer.dump_data mNotify)).1.handled = [] ∧
    (MailboxConsumer.data_received env0 {}
        ([2, 1, 99] ++ MailboxConsumer.dump_data mNotify)).2 =
      some .unpicklingError := by
  refine ⟨?_, ?_, ?_⟩ <;> rfl

/-- Claim C2 (amended): a decoded frame whose payload fails to deserialize
makes the deserialization error escape MailboxConsumer.data_received
uncaught: the read loop stops with that error after consuming the frame, no
failure response is written, and no further frame of the chunk is
dispatched. -/
theorem c2_deserialize_failure_escapes (env : ActorEnv) (s : ConsumerState)
    (data : Bytes) (f : Frame) (rest : Bytes)
    (hdec : frame_decode (s.buf ++ data) = some (f, rest))
    (hde : deserialize f.body = none) :
    MailboxConsumer.data_received env s data =
      ({ s with buf := rest }, some .unpicklingError) := by
  obtain ⟨op, len, r, hb⟩ : ∃ op len r, s.buf ++ data = op :: len :: r := by
    cases hcase : s.buf ++ data with
    | nil => rw [hcase] at hdec; simp [frame_decode] at hdec
    | cons op t =>
      cases t with
      | nil => rw [hcase] at hdec; simp [frame_decode] at hdec
      | cons len r => exact ⟨op, len, r, rfl⟩
  rw [hb] at hdec
  unfold MailboxConsumer.data_received
  rw [hb]
  simp only [List.length_cons, drainFrames, hdec, hde]

/-- Claim C2 witness: the amended statement instantiated at the concrete
undecodable payload 99 framed with opcode 2. -/
theorem c2_deserialize_failure_escapes_witness :
    frame_decode (({} : ConsumerState).buf ++ [2, 1, 99]) =
      some (⟨2, [99]⟩, []) ∧
    deserialize [99] = none ∧
    MailboxConsumer.data_received env0 {} [2, 1, 99] =
      ({ ({} : ConsumerState) with buf := [] }, some .unpicklingError) :=
  ⟨rfl, rfl,
    c2_deserialize_failure_escapes env0 {} [2, 1, 99] ⟨2, [99]⟩ [] rfl rfl⟩
